import Mathlib

/-!
Verification development for the impreproc DJI GNSS-log / EXIF correlation and
coordinate-reprojection pipeline.

The definitions below are a shallow embedding of the Python source:
  - `src/impreproc/dji.py` (`mrkread`, `merge_mrk_exif_data`, `project_to_utm`)
  - `src/impreproc/transformations.py` (`bilinear_interpolate`)

Python dictionaries are modelled as association lists with dict-faithful
insertion (replace-in-place on an existing key, append otherwise).
Python floats are modelled as exact rationals; the external pyproj library
(CRS resolution and the forward transform) is modelled as an explicit
environment parameter, since its behaviour is outside this repository.
Python exceptions are modelled as explicit error results, threaded together
with the (possibly mutated) state of the input dictionary.
-/

/-- Association-list model of a Python `dict`. Key order is insertion order. -/
@[reducible] def PyDict (κ α : Type) : Type := List (κ × α)

namespace PyDict

/-- `d[k]` lookup: value at the first occurrence of key `k`. -/
def get? {κ α : Type} [DecidableEq κ] : PyDict κ α → κ → Option α
  | [], _ => none
  | (k1, v) :: rest, k => if k1 = k then some v else get? rest k

/-- `d[k] = v` assignment: replace the value at an existing key in place,
append a new binding otherwise (Python dict semantics). -/
def set {κ α : Type} [DecidableEq κ] : PyDict κ α → κ → α → PyDict κ α
  | [], k, v => [(k, v)]
  | (k1, v1) :: rest, k, v =>
    if k1 = k then (k, v) :: rest else (k1, v1) :: set rest k v

/-- `d.keys()` in iteration order. -/
def keys {κ α : Type} (d : PyDict κ α) : List κ := d.map Prod.fst

end PyDict

/-- A Python value stored in a record: a number (float/int, modelled as `ℚ`)
or a string. -/
inductive Val : Type
  | num (q : ℚ)
  | str (s : String)
deriving DecidableEq

/-- Numeric view of a record value. -/
def Val.asNum : Val → Option ℚ
  | .num q => some q
  | .str _ => none

/-- One record of a data dictionary (a Python `dict` from field name to value). -/
@[reducible] def Record : Type := PyDict String Val

/-- A data dictionary handed to `project_to_utm`: point id to record, where a
record may be Python `None` (a missing image produced by the merge step). -/
@[reducible] def DataDict : Type := PyDict Int (Option Record)

/-- Python exceptions that the embedded code can raise. -/
inductive PErr : Type
  | assertionError
  | keyError
  | typeError
deriving DecidableEq

/-- Result of a `project_to_utm` call: the Python return value `None`, a
returned dictionary, or a propagated exception. -/
inductive PRes : Type
  | retNone
  | retDict (d : DataDict)
  | exn (e : PErr)
deriving DecidableEq

/-- The relevant facts pyproj exposes about a resolved CRS
(`pyproj.CRS.is_geographic` / `is_projected`). -/
structure CRSInfo : Type where
  is_geographic : Bool
  is_projected : Bool
deriving DecidableEq

/-- Environment modelling the external pyproj library: EPSG resolution
(`none` models `pyproj.CRS.from_epsg` raising) and the forward transform of
the `Transformer` bound to a CRS pair. -/
structure CRSEnv : Type where
  resolve : Int → Option CRSInfo
  tf : Int → Int → ℚ → ℚ → ℚ × ℚ

/-- An element of the Python `fields` list argument: a string, or some
non-string value (which the `all(isinstance(i, str) ...)` assert rejects). -/
inductive PyField : Type
  | str (s : String)
  | nonStr
deriving DecidableEq

/-- The `isinstance(i, str)` check. -/
def PyField.isStr : PyField → Bool
  | .str _ => true
  | .nonStr => false

/-- String content of a field element, when it is a string. -/
def PyField.asStr : PyField → Option String
  | .str s => some s
  | .nonStr => none

/-- `fields[i]` after the all-strings assert has passed. -/
def fieldAt (fields : List PyField) (i : ℕ) : String :=
  ((fields.get? i).bind PyField.asStr).getD ""

/-- One iteration of the `for key, row in data_dict.items()` loop of
`dji.project_to_utm` (dji.py lines 271-300), acting on the current states of
`data_dict` (`dd`) and of the deep copy `out`. Mirrors the source exactly:
the inner `for f in fields` check only logs (its `continue` binds to the
inner loop), `row[fields[0]]` / `row[fields[1]]` raise `KeyError` when
absent, and in the `not in_place` branch the third field is written back
into `row` (the input), not into `out[key]`. -/
def projStep (tf : ℚ → ℚ → ℚ × ℚ) (fields : List PyField) (suffix : String)
    (in_place : Bool) (key : Int) (dd out : DataDict) :
    (DataDict × DataDict) × Option PErr :=
  match (PyDict.get? dd key).getD none with
  | none => ((dd, out), none)
  | some row =>
    match PyDict.get? row (fieldAt fields 0) with
    | none => ((dd, out), some PErr.keyError)
    | some latv =>
      match PyDict.get? row (fieldAt fields 1) with
      | none => ((dd, out), some PErr.keyError)
      | some lonv =>
        match latv.asNum, lonv.asNum with
        | some lat, some lon =>
          let xy := tf lat lon
          if in_place then
            let row1 := PyDict.set (PyDict.set row ("E" ++ suffix) (Val.num xy.1))
              ("N" ++ suffix) (Val.num xy.2)
            if fields.length == 3 then
              match PyDict.get? row1 (fieldAt fields 2) with
              | none => ((PyDict.set dd key (some row1), out), some PErr.keyError)
              | some hv =>
                ((PyDict.set dd key (some (PyDict.set row1 ("h" ++ suffix) hv)), out), none)
            else ((PyDict.set dd key (some row1), out), none)
          else
            match (PyDict.get? out key).getD none with
            | none => ((dd, out), some PErr.typeError)
            | some orow =>
              let orow1 := PyDict.set (PyDict.set orow ("E" ++ suffix) (Val.num xy.1))
                ("N" ++ suffix) (Val.num xy.2)
              let out1 := PyDict.set out key (some orow1)
              if fields.length == 3 then
                match PyDict.get? row (fieldAt fields 2) with
                | none => ((dd, out1), some PErr.keyError)
                | some hv =>
                  ((PyDict.set dd key (some (PyDict.set row ("h" ++ suffix) hv)), out1), none)
              else ((dd, out1), none)
        | _, _ => ((dd, out), some PErr.typeError)

/-- The whole record loop of `dji.project_to_utm`; an exception aborts the
loop, leaving the state as mutated so far. -/
def projLoop (tf : ℚ → ℚ → ℚ × ℚ) (fields : List PyField) (suffix : String)
    (in_place : Bool) : List Int → DataDict → DataDict →
    (DataDict × DataDict) × Option PErr
  | [], dd, out => ((dd, out), none)
  | k :: ks, dd, out =>
    match projStep tf fields suffix in_place k dd out with
    | (st, some e) => (st, some e)
    | ((dd2, out2), none) => projLoop tf fields suffix in_place ks dd2 out2

/-- Shallow embedding of `dji.project_to_utm` (dji.py lines 216-305).
Returns the final state of `data_dict` (which that function may mutate even
with `in_place=False`) paired with the Python result: the three leading
asserts raise `AssertionError`; a CRS resolution failure or a failed
geographic/projected check inside the `try` is caught and turned into the
`None` sentinel; otherwise the record loop runs and the function returns
`None` (`in_place=True`) or the deep copy `out` (`in_place=False`). -/
def project_to_utm (env : CRSEnv) (epsg_from epsg_to : Int) (data_dict : DataDict)
    (fields : List PyField) (suffix : String) (in_place : Bool) : DataDict × PRes :=
  if epsg_from = epsg_to then (data_dict, PRes.exn PErr.assertionError)
  else if !(fields.length == 2 || fields.length == 3) then
    (data_dict, PRes.exn PErr.assertionError)
  else if !(fields.all PyField.isStr) then (data_dict, PRes.exn PErr.assertionError)
  else
    match env.resolve epsg_from, env.resolve epsg_to with
    | some cf, some ct =>
      if cf.is_geographic && ct.is_projected then
        match projLoop (env.tf epsg_from epsg_to) fields suffix in_place
            (PyDict.keys data_dict) data_dict data_dict with
        | ((dd2, out2), none) =>
          if in_place then (dd2, PRes.retNone) else (dd2, PRes.retDict out2)
        | ((dd2, _), some e) => (dd2, PRes.exn e)
      else (data_dict, PRes.retNone)
    | _, _ => (data_dict, PRes.retNone)

/-! ## Concrete pyproj environments and inputs used in the theorems below -/

/-- Environment where EPSG 4326 resolves to a geographic CRS, EPSG 32632 to a
projected CRS, every other code is unresolvable, and the forward transform is
a fixed concrete map. -/
def envT : CRSEnv :=
  ⟨fun n => if n = 4326 then some ⟨true, false⟩
    else if n = 32632 then some ⟨false, true⟩ else none,
   fun _ _ la lo => (lo, la)⟩

/-- Environment where only EPSG 4326 resolves (and is geographic). -/
def envW : CRSEnv :=
  ⟨fun n => if n = 4326 then some ⟨true, false⟩ else none,
   fun _ _ la lo => (lo, la)⟩

/-- `fields=["lat","lon"]`. -/
def f2 : List PyField := [PyField.str "lat", PyField.str "lon"]

/-- `fields=["lat","lon","ellh"]`. -/
def f3 : List PyField := [PyField.str "lat", PyField.str "lon", PyField.str "ellh"]

/-- A one-record data dictionary with lat/lon/ellh fields. -/
def ddC1 : DataDict :=
  [(1, some [("lat", Val.num 45), ("lon", Val.num 9), ("ellh", Val.num 100)])]

/-- A dictionary with a null record, a record missing the `lat` field, and a
complete record after it. -/
def ddC3 : DataDict :=
  [(0, none), (1, some [("lon", Val.num 9)]),
   (2, some [("lat", Val.num 45), ("lon", Val.num 9)])]

/-- A one-record data dictionary with lat/lon/ellh fields (distinct values). -/
def ddC4 : DataDict :=
  [(7, some [("lat", Val.num 44), ("lon", Val.num 8), ("ellh", Val.num 200)])]

/-- A small valid record dictionary. -/
def ddW : DataDict := [(1, some [("lat", Val.num 45), ("lon", Val.num 9)])]

/-! ## Helper lemmas about `project_to_utm` (shared by several theorems) -/

/-- With the three leading asserts satisfied but the CRS pair invalid
(unresolvable code, non-geographic source, or non-projected destination),
`project_to_utm` returns the `None` sentinel and leaves the input unchanged. -/
theorem project_to_utm_badCRS (env : CRSEnv) (ef et : Int) (dd : DataDict)
    (fields : List PyField) (suffix : String) (ip : Bool)
    (hne : ef ≠ et) (hlen : fields.length = 2 ∨ fields.length = 3)
    (hstr : fields.all PyField.isStr = true)
    (hbad : env.resolve ef = none ∨ env.resolve et = none ∨
      ∀ cf ct, env.resolve ef = some cf → env.resolve et = some ct →
        cf.is_geographic = false ∨ ct.is_projected = false) :
    project_to_utm env ef et dd fields suffix ip = (dd, PRes.retNone) := by
  have h2 : (fields.length == 2 || fields.length == 3) = true := by
    rcases hlen with h | h <;> simp [h]
  cases hef : env.resolve ef with
  | none =>
    cases het : env.resolve et <;> simp [project_to_utm, hne, h2, hstr, hef, het]
  | some cf =>
    cases het : env.resolve et with
    | none => simp [project_to_utm, hne, h2, hstr, hef, het]
    | some ct =>
      have hb : cf.is_geographic = false ∨ ct.is_projected = false := by
        rcases hbad with h | h | h
        · rw [hef] at h; exact absurd h (by simp)
        · rw [het] at h; exact absurd h (by simp)
        · exact h cf ct hef het
      rcases hb with h | h <;> simp [project_to_utm, hne, h2, hstr, hef, het, h]

/-- Any violation of the three leading asserts (equal EPSG codes, a `fields`
list whose length is neither 2 nor 3, or a non-string element of `fields`)
makes `project_to_utm` raise `AssertionError` with the input unchanged. -/
theorem project_to_utm_assert (env : CRSEnv) (ef et : Int) (dd : DataDict)
    (fields : List PyField) (suffix : String) (ip : Bool)
    (hbad : ef = et ∨ ¬(fields.length = 2 ∨ fields.length = 3) ∨
      ∃ f ∈ fields, f.isStr = false) :
    project_to_utm env ef et dd fields suffix ip
      = (dd, PRes.exn PErr.assertionError) := by
  by_cases he : ef = et
  · simp [project_to_utm, he]
  · rcases hbad with h | h | h
    · exact absurd h he
    · push_neg at h
      have h2 : (fields.length == 2 || fields.length == 3) = false := by
        simp [h.1, h.2]
      simp [project_to_utm, he, h2]
    · by_cases hl : fields.length = 2 ∨ fields.length = 3
      · have h2 : (fields.length == 2 || fields.length == 3) = true := by
          rcases hl with hl | hl <;> simp [hl]
        have h3 : fields.all PyField.isStr = false := by
          rcases h with ⟨f, hf, hfs⟩
          rw [Bool.eq_false_iff]
          intro hall
          rw [List.all_eq_true] at hall
          have := hall f hf
          rw [hfs] at this
          exact Bool.false_ne_true this
        simp [project_to_utm, he, h2, h3]
      · push_neg at hl
        have h2 : (fields.length == 2 || fields.length == 3) = false := by
          simp [hl.1, hl.2]
        simp [project_to_utm, he, h2]

/-- A call with `in_place=True` never returns a dictionary: every path yields
the `None` sentinel or an exception. -/
theorem project_to_utm_inplace_no_dict (env : CRSEnv) (ef et : Int)
    (dd : DataDict) (fields : List PyField) (suffix : String) (d : DataDict) :
    (project_to_utm env ef et dd fields suffix true).2 ≠ PRes.retDict d := by
  unfold project_to_utm
  repeat' split
  all_goals try exact absurd rfl (by assumption)
  all_goals simp

/-! ## Claims C1, C3, C4 (the projection loop bugs) and C7, C8, C10 -/

/-- The record produced for key 7 of `ddC4` in the returned copy: it receives
`E` and `N` but no `h` field. -/
def orowC4 : Record :=
  [("lat", Val.num 44), ("lon", Val.num 8), ("ellh", Val.num 200),
   ("E", Val.num 8), ("N", Val.num 44)]

/-- C1 (code bug, dji.py line 300): with `in_place=False` and three fields,
`project_to_utm` writes the `h` field into the input record instead of the
deep copy. Evaluated at a concrete valid input: the final state of the input
mapping has gained an `h` field (so the input is modified), the returned
mapping's record carries `E`/`N` but no `h`, while `in_place=True` on an
identical input produces a record with `E`, `N` and `h` — so the two modes do
not produce equal field values, contradicting the claim. -/
theorem C1_notInPlace_mutates_input_and_output_misses_h :
    (project_to_utm envT 4326 32632 ddC1 f3 "" false).1
      = [(1, some [("lat", Val.num 45), ("lon", Val.num 9), ("ellh", Val.num 100),
          ("h", Val.num 100)])]
    ∧ (project_to_utm envT 4326 32632 ddC1 f3 "" false).1 ≠ ddC1
    ∧ (project_to_utm envT 4326 32632 ddC1 f3 "" false).2
      = PRes.retDict [(1, some [("lat", Val.num 45), ("lon", Val.num 9),
          ("ellh", Val.num 100), ("E", Val.num 9), ("N", Val.num 45)])]
    ∧ (project_to_utm envT 4326 32632 ddC1 f3 "" true).1
      = [(1, some [("lat", Val.num 45), ("lon", Val.num 9), ("ellh", Val.num 100),
          ("E", Val.num 9), ("N", Val.num 45), ("h", Val.num 100)])] := by
  refine ⟨?_, ?_, ?_, ?_⟩ <;> decide

/-- C3 (code bug, dji.py lines 280-287): the `continue` for a missing field
binds to the inner `for f in fields` loop, so a record lacking a declared
field is not skipped: `row[fields[0]]` raises `KeyError` and the whole batch
aborts (the complete record at key 2 is never processed). A dictionary whose
only entry is a null record is handled as the claim says (skipped, returning
the `None` sentinel), so the failure is specific to the missing-field case. -/
theorem C3_missing_field_aborts_batch_with_keyError :
    project_to_utm envT 4326 32632 ddC3 f2 "" true = (ddC3, PRes.exn PErr.keyError)
    ∧ project_to_utm envT 4326 32632 [(0, none)] f2 "" true
      = ([(0, none)], PRes.retNone) := by
  refine ⟨?_, ?_⟩ <;> decide

/-- C4 (code bug, dji.py line 300): with `in_place=False` and three declared
fields, the record in the returned mapping receives `E` and `N` equal to the
transformer output for its latitude/longitude, but the `h` pass-through is
written to the input row instead, so the returned record has no `h` field —
contradicting the claim for the `in_place=False` mode. With `in_place=True`
the record does receive `E`, `N` and the unchanged height `h`. -/
theorem C4_out_record_receives_E_N_but_not_h :
    (project_to_utm envT 4326 32632 ddC4 f3 "" false).2 = PRes.retDict [(7, some orowC4)]
    ∧ PyDict.get? orowC4 "E" = some (Val.num (envT.tf 4326 32632 44 8).1)
    ∧ PyDict.get? orowC4 "N" = some (Val.num (envT.tf 4326 32632 44 8).2)
    ∧ PyDict.get? orowC4 "h" = none
    ∧ (project_to_utm envT 4326 32632 ddC4 f3 "" true).1
      = [(7, some [("lat", Val.num 44), ("lon", Val.num 8), ("ellh", Val.num 200),
          ("E", Val.num 8), ("N", Val.num 44), ("h", Val.num 200)])] := by
  refine ⟨?_, ?_, ?_, ?_, ?_⟩ <;> decide

/-- C7: whenever the source CRS is not geographic, or the destination CRS is
not projected, or either EPSG code is unresolvable (and the leading asserts
are satisfied, so the call reaches the transformer construction),
`project_to_utm` returns the `None` sentinel and leaves every record of the
input dictionary unmodified — no partially projected output is produced. -/
theorem C7_invalid_crs_returns_sentinel_unmodified (env : CRSEnv) (ef et : Int)
    (dd : DataDict) (fields : List PyField) (suffix : String) (ip : Bool)
    (hne : ef ≠ et) (hlen : fields.length = 2 ∨ fields.length = 3)
    (hstr : fields.all PyField.isStr = true)
    (hbad : env.resolve ef = none ∨ env.resolve et = none ∨
      ∀ cf ct, env.resolve ef = some cf → env.resolve et = some ct →
        cf.is_geographic = false ∨ ct.is_projected = false) :
    project_to_utm env ef et dd fields suffix ip = (dd, PRes.retNone) :=
  project_to_utm_badCRS env ef et dd fields suffix ip hne hlen hstr hbad

/-- Witness for C7 at a concrete input: EPSG 32632 is unresolvable in `envW`. -/
theorem C7_witness :
    project_to_utm envW 4326 32632 ddW f2 "" false = (ddW, PRes.retNone) :=
  C7_invalid_crs_returns_sentinel_unmodified envW 4326 32632 ddW f2 "" false
    (by decide) (by decide) (by decide) (Or.inr (Or.inl (by decide)))

/-- C8: calling `project_to_utm` with `epsg_from == epsg_to`, or with a
`fields` list whose length is neither 2 nor 3, or one containing a non-string
element, raises `AssertionError` (a configuration failure) before any record
is read or mutated: the input dictionary is returned unchanged. -/
theorem C8_precondition_violations_raise_before_processing (env : CRSEnv)
    (ef et : Int) (dd : DataDict) (fields : List PyField) (suffix : String)
    (ip : Bool)
    (hbad : ef = et ∨ ¬(fields.length = 2 ∨ fields.length = 3) ∨
      ∃ f ∈ fields, f.isStr = false) :
    project_to_utm env ef et dd fields suffix ip
      = (dd, PRes.exn PErr.assertionError) :=
  project_to_utm_assert env ef et dd fields suffix ip hbad

/-- Witness for C8: equal EPSG codes, and a non-string field element. -/
theorem C8_witness :
    project_to_utm envT 4326 4326 ddW f2 "" true = (ddW, PRes.exn PErr.assertionError)
    ∧ project_to_utm envT 4326 32632 ddW [PyField.str "lat", PyField.nonStr] "" true
      = (ddW, PRes.exn PErr.assertionError) :=
  ⟨C8_precondition_violations_raise_before_processing envT 4326 4326 ddW f2 "" true
      (Or.inl rfl),
   C8_precondition_violations_raise_before_processing envT 4326 32632 ddW
      [PyField.str "lat", PyField.nonStr] "" true
      (Or.inr (Or.inr ⟨PyField.nonStr, by decide, rfl⟩))⟩

/-- C10: `project_to_utm` yields the same Python value, `None`, both when a
CRS-level validation fails (for either value of `in_place`) and when an
`in_place=True` call succeeds; an `in_place=True` call never returns a
dictionary, so its return value cannot distinguish success from a
CRS-configuration failure. -/
theorem C10_none_return_ambiguity (env : CRSEnv) (ef et : Int) (dd : DataDict)
    (fields : List PyField) (suffix : String) :
    (∀ ip, ef ≠ et → (fields.length = 2 ∨ fields.length = 3) →
      fields.all PyField.isStr = true →
      (env.resolve ef = none ∨ env.resolve et = none ∨
        ∀ cf ct, env.resolve ef = some cf → env.resolve et = some ct →
          cf.is_geographic = false ∨ ct.is_projected = false) →
      (project_to_utm env ef et dd fields suffix ip).2 = PRes.retNone)
    ∧ ∀ d, (project_to_utm env ef et dd fields suffix true).2 ≠ PRes.retDict d := by
  constructor
  · intro ip hne hlen hstr hbad
    rw [project_to_utm_badCRS env ef et dd fields suffix ip hne hlen hstr hbad]
  · intro d
    exact project_to_utm_inplace_no_dict env ef et dd fields suffix d

/-- Witness for C10: a CRS failure returns `None`, and a successful
`in_place=True` call on a valid environment never returns a dictionary. -/
theorem C10_witness :
    (project_to_utm envW 4326 32632 ddW f2 "" true).2 = PRes.retNone
    ∧ ∀ d, (project_to_utm envT 4326 32632 ddW f2 "" true).2 ≠ PRes.retDict d :=
  ⟨(C10_none_return_ambiguity envW 4326 32632 ddW f2 "").1 true (by decide)
      (by decide) (by decide) (Or.inr (Or.inl (by decide))),
   (C10_none_return_ambiguity envT 4326 32632 ddW f2 "").2⟩

/-! ## Embedding of `dji.mrkread` (dji.py lines 84-127) -/

/-- One parsed `.mrk` log record (`MrkData` TypedDict of dji.py). -/
structure MrkData : Type where
  id : ℤ
  clock_time : ℚ
  lat : ℚ
  lon : ℚ
  ellh : ℚ
  stdE : ℚ
  stdN : ℚ
  stdV : ℚ
  dE : ℚ
  dN : ℚ
  dV : ℚ
  Qual : ℚ
  Flag : String
deriving DecidableEq

/-- The parsed log dictionary: point id to record. -/
@[reducible] def MrkDict : Type := PyDict Int MrkData

/-- Python exceptions `mrkread` can raise while parsing a line. -/
inductive MrkErr : Type
  | indexError
  | valueError
deriving DecidableEq

instance {ε α : Type} [DecidableEq ε] [DecidableEq α] : DecidableEq (Except ε α) :=
  fun x y =>
  match x, y with
  | .ok a, .ok b => if h : a = b then isTrue (by rw [h]) else isFalse (by simp [h])
  | .error a, .error b =>
    if h : a = b then isTrue (by rw [h]) else isFalse (by simp [h])
  | .ok _, .error _ => isFalse (by simp)
  | .error _, .ok _ => isFalse (by simp)

/-- Split a character list at every separator, keeping empty pieces (the
semantics of `re.split` on a single-character alternation). -/
def splitSep (sep : Char → Bool) : List Char → List (List Char)
  | [] => [[]]
  | c :: rest =>
    let r := splitSep sep rest
    if sep c then [] :: r
    else
      match r with
      | [] => [[c]]
      | h :: t => (c :: h) :: t

/-- The per-line split of `mrkread`: `re.split(",|\t|[|]|\n", line)` splits at
every comma, tab, pipe, or newline, keeping empty pieces. -/
def splitLine (s : String) : List String :=
  (splitSep (fun c => c == ',' || c == '\t' || c == '|' || c == '\n') s.toList).map
    fun cs => ⟨cs⟩

/-- Numeric value of a list of decimal digit characters. -/
def digitsVal (cs : List Char) : ℕ :=
  cs.foldl (fun a c => a * 10 + (c.toNat - 48)) 0

/-- Unsigned decimal mantissa: digits with at most one point and at least one
digit overall (Python accepts "12", "12.", ".5", "1.5"). Built on `mkRat` so
that concrete values evaluate. -/
def parseMant (cs : List Char) : Option ℚ :=
  match cs.splitOn '.' with
  | [ip] =>
    if !ip.isEmpty && ip.all Char.isDigit then some (mkRat (digitsVal ip) 1) else none
  | [ip, fp] =>
    if (!ip.isEmpty || !fp.isEmpty) && ip.all Char.isDigit && fp.all Char.isDigit then
      some (mkRat (digitsVal ip * 10 ^ fp.length + digitsVal fp) (10 ^ fp.length))
    else none
  | _ => none

/-- Optionally signed decimal integer (the exponent part of a float). -/
def parseExpInt (cs : List Char) : Option ℤ :=
  match cs with
  | '+' :: r =>
    if !r.isEmpty && r.all Char.isDigit then some (digitsVal r : ℤ) else none
  | '-' :: r =>
    if !r.isEmpty && r.all Char.isDigit then some (-(digitsVal r : ℤ)) else none
  | r =>
    if !r.isEmpty && r.all Char.isDigit then some (digitsVal r : ℤ) else none

/-- Scale a rational by a signed power of ten. -/
def scalePow10 (q : ℚ) (e : ℤ) : ℚ :=
  if 0 ≤ e then mkRat (q.num * ((10 : ℕ) ^ e.toNat : ℕ)) q.den
  else mkRat q.num (q.den * (10 : ℕ) ^ (-e).toNat)

/-- Model of Python `np.float_(s)` on decimal notation: optional surrounding
whitespace, optional sign, decimal mantissa, optional exponent. `none` models
Python raising `ValueError`. -/
def parseFloatQ (s : String) : Option ℚ :=
  let cs := (s.toList.dropWhile Char.isWhitespace).reverse.dropWhile
    Char.isWhitespace |>.reverse
  let sgn : ℤ × List Char :=
    match cs with
    | '-' :: r => (-1, r)
    | '+' :: r => (1, r)
    | r => (1, r)
  let mant := sgn.2.takeWhile (fun c => !(c == 'e' || c == 'E'))
  let rest := sgn.2.dropWhile (fun c => !(c == 'e' || c == 'E'))
  match parseMant mant with
  | none => none
  | some m =>
    let mq := if sgn.1 = -1 then mkRat (-m.num) m.den else m
    match rest with
    | [] => some mq
    | _ :: ec =>
      match parseExpInt ec with
      | none => none
      | some e => some (scalePow10 mq e)

/-- The integer key `int("%03d" % np.float_(line[0]))`: `%d` truncates the
float toward zero, and the `%03d` minimum-width zero padding does not change
the integer value, so the key is exactly the truncated id. -/
def truncQ (q : ℚ) : ℤ := Int.tdiv q.num (q.den : ℤ)

/-- `line[i]`: raises `IndexError` when the split line is too short. -/
def getField (l : List String) (i : ℕ) : Except MrkErr String :=
  match l.get? i with
  | some s => Except.ok s
  | none => Except.error MrkErr.indexError

/-- `np.float_(line[i])`: `ValueError` on a non-numeric field. -/
def getNum (l : List String) (i : ℕ) : Except MrkErr ℚ := do
  let s ← getField l i
  match parseFloatQ s with
  | some q => Except.ok q
  | none => Except.error MrkErr.valueError

/-- Parsing one split line into an `MrkData` record, with the source's field
positions (dji.py lines 109-124) and Python's evaluation order: id from
position 0, clock time from 1, lat/lon/ellh from 9/11/13, stdE/stdN/stdV
from 15/16/17, dE/dN/dV from 3/5/7, quality from 18, raw flag from 19. -/
def parseMrkFields (l : List String) : Except MrkErr MrkData := do
  let v0 ← getNum l 0
  let v1 ← getNum l 1
  let v9 ← getNum l 9
  let v11 ← getNum l 11
  let v13 ← getNum l 13
  let v15 ← getNum l 15
  let v16 ← getNum l 16
  let v17 ← getNum l 17
  let v3 ← getNum l 3
  let v5 ← getNum l 5
  let v7 ← getNum l 7
  let v18 ← getNum l 18
  let s19 ← getField l 19
  Except.ok ⟨truncQ v0, v1, v9, v11, v13, v15, v16, v17, v3, v5, v7, v18, s19⟩

/-- The line loop of `mrkread`: parse each line and store the record under
its id key (`outdata[id] = data`, later lines overwriting earlier ones). -/
def mrkreadGo : List String → MrkDict → Except MrkErr MrkDict
  | [], d => Except.ok d
  | l :: ls, d =>
    match parseMrkFields (splitLine l) with
    | Except.error e => Except.error e
    | Except.ok r => mrkreadGo ls (PyDict.set d r.id r)

/-- Shallow embedding of `dji.mrkread` on the list of lines of the file (the
file-existence and `.mrk`-suffix asserts are I/O preconditions outside the
embedding). -/
def mrkread (lines : List String) : Except MrkErr MrkDict :=
  mrkreadGo lines []

/-- The records of the lines that parse successfully, in file order. -/
def parsedRecs (lines : List String) : List MrkData :=
  lines.filterMap (fun l => (parseMrkFields (splitLine l)).toOption)

/-- First-biased choice on options. -/
def optOr {α : Type} : Option α → Option α → Option α
  | some a, _ => some a
  | none, b => b

/-- The last record of `rs` whose id is `i`. -/
def lastWithId (rs : List MrkData) (i : ℤ) : Option MrkData :=
  (rs.filter (fun r => r.id = i)).getLast?

/-! ## Dictionary lemmas -/

namespace PyDict

theorem get?_set_self {κ α : Type} [DecidableEq κ] (d : PyDict κ α) (k : κ) (v : α) :
    get? (set d k v) k = some v := by
  induction d with
  | nil => simp [set, get?]
  | cons p rest ih =>
    obtain ⟨k1, v1⟩ := p
    by_cases h : k1 = k
    · simp [set, get?, h]
    · simp [set, get?, h, ih]

theorem get?_set_ne {κ α : Type} [DecidableEq κ] (d : PyDict κ α) (k q : κ) (v : α)
    (hne : k ≠ q) : get? (set d k v) q = get? d q := by
  induction d with
  | nil => simp [set, get?, hne]
  | cons p rest ih =>
    obtain ⟨k1, v1⟩ := p
    by_cases h : k1 = k
    · simp [set, get?, h, hne]
    · simp [set, get?, h, ih]

theorem mem_set {κ α : Type} [DecidableEq κ] (d : PyDict κ α) (k : κ) (v : α)
    (p : κ × α) (hp : p ∈ set d k v) : p = (k, v) ∨ p ∈ d := by
  induction d with
  | nil =>
    simp only [set, List.mem_singleton] at hp
    exact Or.inl hp
  | cons q rest ih =>
    obtain ⟨k1, v1⟩ := q
    by_cases h : k1 = k
    · rw [show set ((k1, v1) :: rest) k v = (k, v) :: rest from by simp [set, h]] at hp
      rcases List.mem_cons.1 hp with h2 | h2
      · exact Or.inl h2
      · exact Or.inr (List.mem_cons_of_mem _ h2)
    · rw [show set ((k1, v1) :: rest) k v = (k1, v1) :: set rest k v from by
        simp [set, h]] at hp
      rcases List.mem_cons.1 hp with h2 | h2
      · exact Or.inr (by rw [h2]; exact List.mem_cons_self _ _)
      · rcases ih h2 with h3 | h3
        · exact Or.inl h3
        · exact Or.inr (List.mem_cons_of_mem _ h3)

theorem keys_cons {κ α : Type} (k : κ) (v : α) (d : PyDict κ α) :
    keys ((k, v) :: d) = k :: keys d := rfl

theorem keys_set_mem {κ α : Type} [DecidableEq κ] (d : PyDict κ α) (k : κ)
    (v : α) (hk : k ∈ keys d) : keys (set d k v) = keys d := by
  induction d with
  | nil => simp [keys] at hk
  | cons p rest ih =>
    obtain ⟨k1, v1⟩ := p
    by_cases h : k1 = k
    · rw [show set ((k1, v1) :: rest) k v = (k, v) :: rest from by simp [set, h],
        keys_cons, keys_cons, h]
    · have hk2 : k ∈ keys rest := by
        rw [keys_cons] at hk
        rcases List.mem_cons.1 hk with h2 | h2
        · exact absurd h2.symm h
        · exact h2
      rw [show set ((k1, v1) :: rest) k v = (k1, v1) :: set rest k v from by
          simp [set, h], keys_cons, keys_cons, ih hk2]

theorem keys_set_not_mem {κ α : Type} [DecidableEq κ] (d : PyDict κ α) (k : κ)
    (v : α) (hk : k ∉ keys d) : keys (set d k v) = keys d ++ [k] := by
  induction d with
  | nil => simp [set, keys]
  | cons p rest ih =>
    obtain ⟨k1, v1⟩ := p
    have h : k1 ≠ k := fun he => hk (by rw [keys_cons, ← he]; exact List.mem_cons_self _ _)
    have hk2 : k ∉ keys rest := fun h2 => hk (by rw [keys_cons]; exact List.mem_cons_of_mem _ h2)
    rw [show set ((k1, v1) :: rest) k v = (k1, v1) :: set rest k v from by
        simp [set, h], keys_cons, keys_cons, ih hk2]
    rfl

theorem nodup_keys_set {κ α : Type} [DecidableEq κ] (d : PyDict κ α) (k : κ)
    (v : α) (h : (keys d).Nodup) : (keys (set d k v)).Nodup := by
  by_cases hk : k ∈ keys d
  · rw [keys_set_mem d k v hk]; exact h
  · rw [keys_set_not_mem d k v hk, List.nodup_append]
    refine ⟨h, List.nodup_singleton _, ?_⟩
    intro a ha hb
    rw [List.mem_singleton] at hb
    subst hb
    exact hk ha

theorem get?_eq_none_iff {κ α : Type} [DecidableEq κ] (d : PyDict κ α) (k : κ) :
    get? d k = none ↔ k ∉ keys d := by
  induction d with
  | nil => simp [get?, keys]
  | cons p rest ih =>
    obtain ⟨k1, v1⟩ := p
    by_cases h : k1 = k
    · simp [get?, keys, h]
    · simp [get?, keys, h, Ne.symm h, ih]

end PyDict

theorem optOr_none_right {α : Type} (x : Option α) : optOr x none = x := by
  cases x <;> rfl

theorem optOr_some_absorb {α : Type} (x : Option α) (a : α) (y : Option α) :
    optOr (optOr x (some a)) y = optOr x (some a) := by
  cases x <;> rfl

theorem getLast?_cons_optOr {α : Type} (a : α) (t : List α) :
    (a :: t).getLast? = optOr t.getLast? (some a) := by
  induction t generalizing a with
  | nil => rfl
  | cons b t2 ih =>
    rw [List.getLast?_cons_cons, ih b, optOr_some_absorb]

theorem lastWithId_cons (r : MrkData) (rs : List MrkData) (i : ℤ) :
    lastWithId (r :: rs) i
      = if r.id = i then optOr (lastWithId rs i) (some r) else lastWithId rs i := by
  unfold lastWithId
  by_cases h : r.id = i
  · rw [if_pos h, List.filter_cons_of_pos (by simp [h])]
    exact getLast?_cons_optOr r _
  · rw [if_neg h, List.filter_cons_of_neg (by simp [h])]

/-- Looking a key up after the `mrkread` loop yields the record of the last
line with that id, falling back to the starting dictionary. -/
theorem mrkreadGo_get? (lines : List String) (acc d : MrkDict)
    (h : mrkreadGo lines acc = Except.ok d) (i : ℤ) :
    PyDict.get? d i = optOr (lastWithId (parsedRecs lines) i) (PyDict.get? acc i) := by
  induction lines generalizing acc with
  | nil =>
    simp only [mrkreadGo] at h
    cases h
    simp [parsedRecs, lastWithId, optOr]
  | cons l ls ih =>
    rw [mrkreadGo] at h
    cases hp : parseMrkFields (splitLine l) with
    | error e => rw [hp] at h; cases h
    | ok r =>
      rw [hp] at h
      rw [ih _ h]
      have hrecs : parsedRecs (l :: ls) = r :: parsedRecs ls := by
        simp [parsedRecs, List.filterMap_cons, hp, Except.toOption]
      rw [hrecs, lastWithId_cons]
      by_cases hid : r.id = i
      · subst hid
        rw [if_pos rfl, optOr_some_absorb, PyDict.get?_set_self]
      · rw [if_neg hid, PyDict.get?_set_ne acc r.id i r hid]

/-- The `mrkread` loop keeps the key list duplicate-free. -/
theorem mrkreadGo_nodup (lines : List String) (acc d : MrkDict)
    (hacc : (PyDict.keys acc).Nodup) (h : mrkreadGo lines acc = Except.ok d) :
    (PyDict.keys d).Nodup := by
  induction lines generalizing acc with
  | nil => simp only [mrkreadGo] at h; cases h; exact hacc
  | cons l ls ih =>
    rw [mrkreadGo] at h
    cases hp : parseMrkFields (splitLine l) with
    | error e => rw [hp] at h; cases h
    | ok r =>
      rw [hp] at h
      exact ih _ (PyDict.nodup_keys_set _ _ _ hacc) h

/-- Every entry of the parsed dictionary is keyed by its record's id. -/
theorem mrkreadGo_id_inv (lines : List String) (acc d : MrkDict)
    (hacc : ∀ p ∈ acc, p.1 = p.2.id) (h : mrkreadGo lines acc = Except.ok d) :
    ∀ p ∈ d, p.1 = p.2.id := by
  induction lines generalizing acc with
  | nil => simp only [mrkreadGo] at h; cases h; exact hacc
  | cons l ls ih =>
    rw [mrkreadGo] at h
    cases hp : parseMrkFields (splitLine l) with
    | error e => rw [hp] at h; cases h
    | ok r =>
      rw [hp] at h
      refine ih _ ?_ h
      intro p hp2
      rcases PyDict.mem_set _ _ _ _ hp2 with rfl | hp3
      · rfl
      · exact hacc p hp3

/-- C9 (amended): `mrkread` keys each record by `int("%03d" % float(line[0]))`;
`%03d` is a minimum-width zero padding, so the key is the full truncated
integer value of the id field — ids outside 0-999 keep their value and do not
alias. Duplicate resulting keys are last-write-wins: the parsed dictionary
has exactly one entry per key (no duplicate keys), every entry is keyed by
its record's id, and looking up any id yields the record of the last
successfully parsed line with that id. -/
theorem C9_minwidth_key_and_last_write_wins (lines : List String) (d : MrkDict)
    (h : mrkread lines = Except.ok d) :
    (PyDict.keys d).Nodup
    ∧ (∀ p ∈ d, p.1 = p.2.id)
    ∧ ∀ i, PyDict.get? d i = lastWithId (parsedRecs lines) i := by
  refine ⟨mrkreadGo_nodup lines [] d (by simp [PyDict.keys]) h,
    mrkreadGo_id_inv lines [] d (fun p hp => absurd hp (List.not_mem_nil p)) h, ?_⟩
  intro i
  have h2 := mrkreadGo_get? lines [] d h i
  rwa [show PyDict.get? ([] : MrkDict) i = none from rfl, optOr_none_right] at h2

/-- The `.mrk` line used for the C9 counterexample: its id field holds 1234. -/
def mrkLine1234 : String :=
  "1234,1,0,2,N,3,E,4,V,45.5,Lat,9.25,Lon,100,Ellh,0.1,0.2,0.3,50,FIX"

/-- C9 counterexample: the claim says ids outside 0-999 are truncated to the
3-digit width and alias in-range ids; in fact `mrkread` keys this record
under the full value 1234, which lies outside 0-999, so no truncation or
aliasing happens. -/
theorem C9_counterexample :
    (mrkread [mrkLine1234]).map PyDict.keys = Except.ok [(1234 : ℤ)]
    ∧ ¬ ((0 : ℤ) ≤ 1234 ∧ (1234 : ℤ) ≤ 999) := by
  refine ⟨?_, ?_⟩ <;> decide

/-- Two lines sharing id 5; the second must win. -/
def mrkLinesDup : List String :=
  ["5,1,0,2,N,3,E,4,V,45.5,Lat,9.25,Lon,100,Ellh,0.1,0.2,0.3,50,FIX",
   "5,2,0,2,N,3,E,4,V,46.5,Lat,9.75,Lon,200,Ellh,0.1,0.2,0.3,16,FLT"]

/-- The record of the second (winning) line of `mrkLinesDup`. -/
def mrkRecDup : MrkData :=
  ⟨5, mkRat 2 1, mkRat 93 2, mkRat 39 4, mkRat 200 1, mkRat 1 10, mkRat 1 5,
   mkRat 3 10, mkRat 2 1, mkRat 3 1, mkRat 4 1, mkRat 16 1, "FLT"⟩

/-- Witness for C9 on a concrete duplicate-id log. -/
theorem C9_witness :
    (PyDict.keys ([((5 : ℤ), mrkRecDup)] : MrkDict)).Nodup
    ∧ (∀ p ∈ ([((5 : ℤ), mrkRecDup)] : MrkDict), p.1 = p.2.id)
    ∧ ∀ i, PyDict.get? ([((5 : ℤ), mrkRecDup)] : MrkDict) i
        = lastWithId (parsedRecs mrkLinesDup) i :=
  C9_minwidth_key_and_last_write_wins mrkLinesDup [((5 : ℤ), mrkRecDup)] (by decide)

/-- C5 (amended): `mrkread` splits each line on any of comma, tab, pipe and
reads fixed positions: 0 = point id (re-rendered as an integer key), 1 =
clock time, 3/5/7 = delta E/N/V (the parser stores position 3 as `dE` and
position 5 as `dN`, the reverse of the claim's N/E order), 9/11/13 =
lat/lon/ellh, 15/16/17 = std E/N/V (position 15 is stored as `stdE` and 16
as `stdN`, again the reverse of the claim's order), 18 = quality code, 19 =
flag string. Whenever all those positions parse, the resulting record is
exactly the one assembled from them; in particular a line with 45.463873 at
position 9, 9.190653 at 11, 100.0 at 13 and 50 at 18 yields
lat = 45.463873, lon = 9.190653, ellh = 100.0 and Qual = 50. -/
theorem C5_fixed_field_positions (l : List String)
    (v0 v1 v3 v5 v7 v9 v11 v13 v15 v16 v17 v18 : ℚ) (s19 : String)
    (h0 : getNum l 0 = Except.ok v0) (h1 : getNum l 1 = Except.ok v1)
    (h3 : getNum l 3 = Except.ok v3) (h5 : getNum l 5 = Except.ok v5)
    (h7 : getNum l 7 = Except.ok v7) (h9 : getNum l 9 = Except.ok v9)
    (h11 : getNum l 11 = Except.ok v11) (h13 : getNum l 13 = Except.ok v13)
    (h15 : getNum l 15 = Except.ok v15) (h16 : getNum l 16 = Except.ok v16)
    (h17 : getNum l 17 = Except.ok v17) (h18 : getNum l 18 = Except.ok v18)
    (h19 : getField l 19 = Except.ok s19) :
    parseMrkFields l = Except.ok
      ⟨truncQ v0, v1, v9, v11, v13, v15, v16, v17, v3, v5, v7, v18, s19⟩ := by
  simp only [parseMrkFields, h0, h1, h3, h5, h7, h9, h11, h13, h15, h16, h17,
    h18, h19]
  rfl

/-- The concrete scenario line of C5: 45.463873 at position 9, 9.190653 at
position 11, 100.0 at position 13, 50 at position 18; positions 3 and 5 hold
the distinct values 10 and 20, and positions 15 and 16 hold 0.01 and 0.02. -/
def mrkLineScenario : String :=
  "1,123.456,0,10,N,20,E,30,V,45.463873,Lat,9.190653,Lon,100.0,Ellh,0.01,0.02,0.03,50,FIX"

/-- The record `mrkread` builds from `mrkLineScenario`. -/
def mrkRecScenario : MrkData :=
  ⟨1, mkRat 123456 1000, mkRat 45463873 1000000, mkRat 9190653 1000000,
   mkRat 100 1, mkRat 1 100, mkRat 1 50, mkRat 3 100, mkRat 10 1, mkRat 20 1,
   mkRat 30 1, mkRat 50 1, "FIX"⟩

/-- Witness for C5: the positional theorem applied to the scenario line. -/
theorem C5_witness :
    parseMrkFields (splitLine mrkLineScenario) = Except.ok mrkRecScenario :=
  C5_fixed_field_positions (splitLine mrkLineScenario) (mkRat 1 1)
    (mkRat 123456 1000) (mkRat 10 1) (mkRat 20 1) (mkRat 30 1)
    (mkRat 45463873 1000000) (mkRat 9190653 1000000) (mkRat 100 1)
    (mkRat 1 100) (mkRat 1 50) (mkRat 3 100) (mkRat 50 1) "FIX"
    (by decide) (by decide) (by decide) (by decide) (by decide) (by decide)
    (by decide) (by decide) (by decide) (by decide) (by decide) (by decide)
    (by decide)

/-- C5 counterexample: in `mrkLineScenario` position 3 holds 10 and position
5 holds 20. The claim's mapping (position 3 = delta N, position 15 = std N)
predicts dN = 10 and stdN = 0.01; the parser instead stores dN = 20 (from
position 5) and stdN = 0.02 (from position 16). -/
theorem C5_counterexample :
    (parseMrkFields (splitLine mrkLineScenario)).map MrkData.dN
      = Except.ok (mkRat 20 1)
    ∧ ¬ ((parseMrkFields (splitLine mrkLineScenario)).map MrkData.dN
      = Except.ok (mkRat 10 1))
    ∧ (parseMrkFields (splitLine mrkLineScenario)).map MrkData.stdN
      = Except.ok (mkRat 1 50)
    ∧ ¬ ((parseMrkFields (splitLine mrkLineScenario)).map MrkData.stdN
      = Except.ok (mkRat 1 100)) := by
  refine ⟨?_, ?_, ?_, ?_⟩ <;> decide

/-! ## Embedding of `dji.merge_mrk_exif_data` (dji.py lines 168-213) -/

/-- One image's EXIF metadata record (`ExifData` TypedDict of dji.py). -/
structure ExifData : Type where
  id : ℤ
  name : String
  path : String
  date : String
  time : String
  lat : ℚ
  lon : ℚ
  ellh : ℚ
deriving DecidableEq

/-- The image dictionary produced by `get_images`: a value is `none` when the
image could not be read (`exifdata[id] = None` in the except branch). -/
@[reducible] def ExifDict : Type := PyDict Int (Option ExifData)

/-- The merged dictionary: a record per matched id, `none` for a log id with
no image. -/
@[reducible] def MergedDict : Type := PyDict Int (Option Record)

/-- The merged record of dji.py lines 186-207: every MRK field suffixed
`_mrk`, every EXIF field suffixed `_exif`, in source order. -/
def mergeRecord (m : MrkData) (e : ExifData) : Record :=
  [("id", Val.num (mkRat m.id 1)),
   ("clock_time_mrk", Val.num m.clock_time),
   ("lat_mrk", Val.num m.lat),
   ("lon_mrk", Val.num m.lon),
   ("ellh_mrk", Val.num m.ellh),
   ("stdE_mrk", Val.num m.stdE),
   ("stdN_mrk", Val.num m.stdN),
   ("stdV_mrk", Val.num m.stdV),
   ("dE_mrk", Val.num m.dE),
   ("dN_mrk", Val.num m.dN),
   ("dV_mrk", Val.num m.dV),
   ("Qual_mrk", Val.num m.Qual),
   ("Flag_mrk", Val.str m.Flag),
   ("name_exif", Val.str e.name),
   ("path_exif", Val.str e.path),
   ("date_exif", Val.str e.date),
   ("time_exif", Val.str e.time),
   ("lat_exif", Val.num e.lat),
   ("lon_exif", Val.num e.lon),
   ("ellh_exif", Val.num e.ellh)]

/-- The key loop of `merge_mrk_exif_data`: for every log id (in order), a
merged record when the image dictionary holds a record for it, a `None`
entry when the id is absent from the image dictionary. A log id whose image
entry is Python `None` passes the `key in exif_dict.keys()` test and then
`exif_dict[key]["name"]` subscripts `None`, raising `TypeError`. -/
def mergeGo (exif : ExifDict) : List (Int × MrkData) → MergedDict →
    Except PErr MergedDict
  | [], acc => Except.ok acc
  | (k, m) :: rest, acc =>
    match PyDict.get? exif k with
    | some (some e) => mergeGo exif rest (PyDict.set acc k (some (mergeRecord m e)))
    | some none => Except.error PErr.typeError
    | none => mergeGo exif rest (PyDict.set acc k none)

/-- Shallow embedding of `dji.merge_mrk_exif_data`. -/
def merge_mrk_exif_data (mrk : MrkDict) (exif : ExifDict) : Except PErr MergedDict :=
  mergeGo exif mrk []

/-- The output entry the merge produces for one log id (when it does not
raise): a merged record if a non-null image record exists, `None` otherwise. -/
def mergeEntry (exif : ExifDict) (k : ℤ) (m : MrkData) : Option Record :=
  match PyDict.get? exif k with
  | some (some e) => some (mergeRecord m e)
  | _ => none

theorem PyDict.set_not_mem {κ α : Type} [DecidableEq κ] (d : PyDict κ α) (k : κ)
    (v : α) (hk : k ∉ PyDict.keys d) : PyDict.set d k v = d ++ [(k, v)] := by
  induction d with
  | nil => rfl
  | cons p rest ih =>
    obtain ⟨k1, v1⟩ := p
    have h : k1 ≠ k := fun he =>
      hk (by rw [PyDict.keys_cons, ← he]; exact List.mem_cons_self _ _)
    have hk2 : k ∉ PyDict.keys rest := fun h2 =>
      hk (by rw [PyDict.keys_cons]; exact List.mem_cons_of_mem _ h2)
    simp [PyDict.set, h, ih hk2]

theorem PyDict.get?_map_entries {κ α β : Type} [DecidableEq κ] (f : κ → α → β)
    (d : PyDict κ α) (k : κ) :
    PyDict.get? (d.map (fun p => (p.1, f p.1 p.2))) k
      = (PyDict.get? d k).map (f k) := by
  induction d with
  | nil => rfl
  | cons p rest ih =>
    obtain ⟨k1, v1⟩ := p
    by_cases h : k1 = k
    · subst h; simp [PyDict.get?]
    · simp [PyDict.get?, h, ih]

theorem PyDict.get?_eq_of_mem_nodup {κ α : Type} [DecidableEq κ]
    (d : PyDict κ α) (hnd : (PyDict.keys d).Nodup) (k : κ) (v : α)
    (hm : (k, v) ∈ d) : PyDict.get? d k = some v := by
  induction d with
  | nil => cases hm
  | cons p rest ih =>
    obtain ⟨k1, v1⟩ := p
    rcases List.mem_cons.1 hm with h | h
    · cases h
      simp [PyDict.get?]
    · have hne : k1 ≠ k := by
        intro he
        subst he
        have hk : k1 ∈ PyDict.keys rest := List.mem_map_of_mem Prod.fst h
        exact (List.nodup_cons.1 hnd).1 hk
      rw [show PyDict.get? ((k1, v1) :: rest) k = PyDict.get? rest k from by
        simp [PyDict.get?, hne]]
      exact ih (List.nodup_cons.1 hnd).2 h

/-- The merge loop, run from an accumulator whose keys are disjoint from the
still-pending log keys, appends one computed entry per pending key. -/
theorem mergeGo_append (exif : ExifDict) (l : List (Int × MrkData))
    (acc : MergedDict)
    (hfresh : ∀ p ∈ l, p.1 ∉ PyDict.keys acc)
    (hnd : (l.map Prod.fst).Nodup)
    (hnn : ∀ p ∈ l, PyDict.get? exif p.1 ≠ some none) :
    mergeGo exif l acc
      = Except.ok (acc ++ l.map (fun p => (p.1, mergeEntry exif p.1 p.2))) := by
  induction l generalizing acc with
  | nil => simp [mergeGo]
  | cons p rest ih =>
    obtain ⟨k, m⟩ := p
    have hk : k ∉ PyDict.keys acc := hfresh (k, m) (List.mem_cons_self _ _)
    have hknd : k ∉ rest.map Prod.fst := (List.nodup_cons.1 hnd).1
    have hfresh2 : ∀ (v : Option Record) (q : Int × MrkData), q ∈ rest →
        q.1 ∉ PyDict.keys (PyDict.set acc k v) := by
      intro v q hq
      rw [PyDict.keys_set_not_mem acc k v hk]
      intro hmem
      rcases List.mem_append.1 hmem with hmem | hmem
      · exact hfresh q (List.mem_cons_of_mem _ hq) hmem
      · rw [List.mem_singleton] at hmem
        exact hknd (hmem ▸ List.mem_map_of_mem Prod.fst hq)
    have hset : ∀ (v : Option Record), PyDict.set acc k v = acc ++ [(k, v)] :=
      fun v => PyDict.set_not_mem acc k v hk
    cases hx : PyDict.get? exif k with
    | none =>
      have hentry : mergeEntry exif k m = none := by simp [mergeEntry, hx]
      simp only [mergeGo, hx]
      rw [ih _ (hfresh2 none) (List.nodup_cons.1 hnd).2
        (fun q hq => hnn q (List.mem_cons_of_mem _ hq)), hset none]
      simp [hentry]
    | some o =>
      cases o with
      | none => exact absurd hx (hnn (k, m) (List.mem_cons_self _ _))
      | some e =>
        have hentry : mergeEntry exif k m = some (mergeRecord m e) := by
          simp [mergeEntry, hx]
        simp only [mergeGo, hx]
        rw [ih _ (hfresh2 (some (mergeRecord m e))) (List.nodup_cons.1 hnd).2
          (fun q hq => hnn q (List.mem_cons_of_mem _ hq)),
          hset (some (mergeRecord m e))]
        simp [hentry]

/-- C2 (amended): whenever every log id that is also present in the image
dictionary maps to a non-null image record, the merge succeeds and, for log
dictionaries with duplicate-free keys (as Python dicts always are), the
output contains exactly one entry per log id — its key list equals the log
key list — namely a provenance-suffixed merged record when a non-null image
record exists for the id and a null entry when the id is absent from the
image dictionary; no id absent from the log dictionary has an entry. A log
id mapping to a null image entry instead raises `TypeError` (see the C2
counterexample), the one case where the original claim fails. -/
theorem C2_log_driven_left_join (mrk : MrkDict) (exif : ExifDict)
    (hnd : (PyDict.keys mrk).Nodup)
    (hnn : ∀ p ∈ mrk, PyDict.get? exif p.1 ≠ some none) :
    ∃ d, merge_mrk_exif_data mrk exif = Except.ok d
    ∧ PyDict.keys d = PyDict.keys mrk
    ∧ (∀ k, k ∉ PyDict.keys mrk → PyDict.get? d k = none)
    ∧ ∀ p ∈ mrk, PyDict.get? d p.1 = some (mergeEntry exif p.1 p.2) := by
  refine ⟨mrk.map (fun p => (p.1, mergeEntry exif p.1 p.2)), ?_, ?_, ?_, ?_⟩
  · unfold merge_mrk_exif_data
    rw [mergeGo_append exif mrk []
      (fun p _ => List.not_mem_nil p.1) hnd hnn]
    simp
  · simp [PyDict.keys, List.map_map]
  · intro k hk
    rw [PyDict.get?_map_entries (mergeEntry exif) mrk k,
      (PyDict.get?_eq_none_iff mrk k).2 hk]
    rfl
  · intro p hp
    obtain ⟨k, m⟩ := p
    rw [PyDict.get?_map_entries (mergeEntry exif) mrk k,
      PyDict.get?_eq_of_mem_nodup mrk hnd k m hp]
    rfl

/-- A minimal MRK record used in the C2 theorems. -/
def mrkRecNull : MrkData := ⟨1, 0, 0, 0, 0, 0, 0, 0, 0, 0, 0, 0, "FIX"⟩

/-- A second MRK record with id 2. -/
def mrkRecTwo : MrkData := ⟨2, 0, 0, 0, 0, 0, 0, 0, 0, 0, 0, 0, "FLT"⟩

/-- A concrete EXIF record for id 1. -/
def exifRecW : ExifData :=
  ⟨1, "DJI_0001", "/data/DJI_0001.JPG", "2023:03:03", "10:31:00",
   mkRat 91 2, mkRat 37 4, mkRat 100 1⟩

/-- C2 counterexample: log id 1 is present in the image dictionary but maps
to a null image record (exactly what `get_images` stores for an unreadable
image); `merge_mrk_exif_data` then subscripts `None` and raises `TypeError`,
so the merged output does not contain an entry for id 1 — the claim's
quantification over every pair of input mappings fails here. -/
theorem C2_counterexample :
    merge_mrk_exif_data [((1 : ℤ), mrkRecNull)]
      [((1 : ℤ), (none : Option ExifData))] = Except.error PErr.typeError := by
  decide

/-- Witness for C2 on a concrete pair: id 1 matched, id 2 without an image. -/
theorem C2_witness :
    ∃ d, merge_mrk_exif_data [((1 : ℤ), mrkRecNull), ((2 : ℤ), mrkRecTwo)]
        [((1 : ℤ), some exifRecW)] = Except.ok d
    ∧ PyDict.keys d
      = PyDict.keys ([((1 : ℤ), mrkRecNull), ((2 : ℤ), mrkRecTwo)] : MrkDict)
    ∧ (∀ k, k ∉ PyDict.keys ([((1 : ℤ), mrkRecNull), ((2 : ℤ), mrkRecTwo)] : MrkDict) →
        PyDict.get? d k = none)
    ∧ ∀ p ∈ ([((1 : ℤ), mrkRecNull), ((2 : ℤ), mrkRecTwo)] : MrkDict),
        PyDict.get? d p.1 = some (mergeEntry [((1 : ℤ), some exifRecW)] p.1 p.2) :=
  C2_log_driven_left_join [((1 : ℤ), mrkRecNull), ((2 : ℤ), mrkRecTwo)]
    [((1 : ℤ), some exifRecW)] (by decide) (by decide)

/-! ## Embedding of `transformations.bilinear_interpolate` (lines 153-186) -/

/-- `np.clip(v, lo, hi)` on integer indices. -/
def clipZ (v lo hi : ℤ) : ℤ := max lo (min v hi)

/-- Shallow embedding of `bilinear_interpolate` for one query point on an
`hh x ww` single-band raster `im` (indexed row first, `im[y, x]`): floor the
query coordinates, clip the four neighbour indices into the valid index
range, and combine the four samples with the area weights computed from the
clipped indices, exactly as the source does. -/
def bilinear_interpolate (hh ww : ℕ) (im : ℤ → ℤ → ℚ) (x y : ℚ) : ℚ :=
  let x0 := clipZ ⌊x⌋ 0 ((ww : ℤ) - 1)
  let x1 := clipZ (⌊x⌋ + 1) 0 ((ww : ℤ) - 1)
  let y0 := clipZ ⌊y⌋ 0 ((hh : ℤ) - 1)
  let y1 := clipZ (⌊y⌋ + 1) 0 ((hh : ℤ) - 1)
  let iA := im y0 x0
  let iB := im y1 x0
  let iC := im y0 x1
  let iD := im y1 x1
  let wa := ((x1 : ℚ) - x) * ((y1 : ℚ) - y)
  let wb := ((x1 : ℚ) - x) * (y - (y0 : ℚ))
  let wc := (x - (x0 : ℚ)) * ((y1 : ℚ) - y)
  let wd := (x - (x0 : ℚ)) * (y - (y0 : ℚ))
  wa * iA + wb * iB + wc * iC + wd * iD

/-- C6 (amended): querying `bilinear_interpolate` exactly on a grid node
whose row and column lie strictly below the last row and column returns that
node's stored value, and the `np.clip` calls force every neighbour index
into the valid range `[0, dim - 1]` for both dimensions, so the function
never indexes out of bounds and never raises. (At a node on the last row or
column the clipped lower and upper indices coincide, every weight vanishes
and the function returns 0 instead of the node value — see the C6
counterexample.) -/
theorem C6_node_value_and_clamping (hh ww : ℕ) (im : ℤ → ℤ → ℚ) (i j : ℕ)
    (v : ℤ) (hi : i + 1 < hh) (hj : j + 1 < ww) :
    bilinear_interpolate hh ww im ((j : ℕ) : ℚ) ((i : ℕ) : ℚ) = im (i : ℤ) (j : ℤ)
    ∧ (0 ≤ clipZ v 0 ((ww : ℤ) - 1) ∧ clipZ v 0 ((ww : ℤ) - 1) ≤ (ww : ℤ) - 1)
    ∧ (0 ≤ clipZ v 0 ((hh : ℤ) - 1) ∧ clipZ v 0 ((hh : ℤ) - 1) ≤ (hh : ℤ) - 1) := by
  refine ⟨?_, ⟨?_, ?_⟩, ⟨?_, ?_⟩⟩
  · simp only [bilinear_interpolate]
    rw [Int.floor_natCast, Int.floor_natCast]
    have hx0 : clipZ (j : ℤ) 0 ((ww : ℤ) - 1) = (j : ℤ) := by unfold clipZ; omega
    have hx1 : clipZ ((j : ℤ) + 1) 0 ((ww : ℤ) - 1) = (j : ℤ) + 1 := by
      unfold clipZ; omega
    have hy0 : clipZ (i : ℤ) 0 ((hh : ℤ) - 1) = (i : ℤ) := by unfold clipZ; omega
    have hy1 : clipZ ((i : ℤ) + 1) 0 ((hh : ℤ) - 1) = (i : ℤ) + 1 := by
      unfold clipZ; omega
    rw [hx0, hx1, hy0, hy1]
    push_cast
    ring_nf
  · unfold clipZ; omega
  · unfold clipZ; omega
  · unfold clipZ; omega
  · unfold clipZ; omega

/-- C6 counterexample: on a 2 x 2 grid of constant value 5, the query point
(1, 1) lies exactly on a grid node (the last row and column), but both
clipped x indices collapse to 1 (and likewise for y), all four weights
vanish, and the function returns 0 — not the stored node value 5. -/
theorem C6_counterexample :
    bilinear_interpolate 2 2 (fun _ _ => (5 : ℚ)) 1 1 = 0
    ∧ (fun (_ _ : ℤ) => (5 : ℚ)) 1 1 ≠ 0 := by
  constructor
  · norm_num [bilinear_interpolate, clipZ, min_def, max_def]
  · norm_num

/-- A concrete 3 x 3 grid with distinct node values. -/
def imW : ℤ → ℤ → ℚ := fun a b => mkRat (10 * a + b) 1

/-- Witness for C6 at the interior node (row 1, column 1) of a 3 x 3 grid. -/
theorem C6_witness :
    bilinear_interpolate 3 3 imW (((1 : ℕ)) : ℚ) (((1 : ℕ)) : ℚ)
      = imW ((1 : ℕ) : ℤ) ((1 : ℕ) : ℤ)
    ∧ (0 ≤ clipZ 7 0 (((3 : ℕ) : ℤ) - 1) ∧ clipZ 7 0 (((3 : ℕ) : ℤ) - 1) ≤ ((3 : ℕ) : ℤ) - 1)
    ∧ (0 ≤ clipZ 7 0 (((3 : ℕ) : ℤ) - 1) ∧ clipZ 7 0 (((3 : ℕ) : ℤ) - 1) ≤ ((3 : ℕ) : ℤ) - 1) :=
  C6_node_value_and_clamping 3 3 imW 1 1 7 (by decide) (by decide)
